import Mathlib

/-!
Shallow embedding of `src/main/main.c` (UART receive / NVS persist / replay
cycle on ESP32) and verification of its specification claims.

Modelling conventions:
* A byte buffer is a `List Nat`; C strings are read up to the first `0` byte.
* The single NVS record under key "uart" is an `Option (List Nat)` holding
  the stored string value (without its terminator), as written by
  `nvs_set_str` / read by `nvs_get_str`.
* IEEE-754 float arithmetic appears only in the speed computation; the value
  of `(count / elapsed) * HZ` is modelled exactly by `FloatVal`: a finite
  rational, `posInf` / `negInf` (division of a nonzero value by zero), or
  `nan` (0 / 0).
* Effects (UART writes, log lines, NVS operations, task delays) are recorded
  as a trace of `Event`s, so claims about what is or is not performed in an
  iteration are statements about the trace.
* Environment inputs the hardware supplies (bytes arriving at the UART, tick
  counts around calls, the return value of `uart_write_bytes`, the success of
  NVS commit/erase, the indeterminate contents of freshly allocated buffers)
  are explicit parameters, threaded exactly where the C code consumes them.
-/

namespace UART

/-- Source constant `RX_BUF_SIZE = 1024` (main.c line 25). -/
def RX_BUF_SIZE : Nat := 1024

/-- FreeRTOS tick rate; ESP-IDF default configuration (100 Hz). The claims
verified below do not depend on its exact value, only on its positivity. -/
def configTICK_RATE_HZ : Nat := 100

/-- C `strlen` on a byte buffer: length of the maximal zero-free starting
segment. -/
def strlen (buf : List Nat) : Nat := (buf.takeWhile (· ≠ 0)).length

/-- The C string held in a buffer: its bytes up to (excluding) the first
zero byte. -/
def cstr (buf : List Nat) : List Nat := buf.takeWhile (· ≠ 0)

/-- Overwrite the first `src.length` cells of `buf` with `src`, leaving the
rest of `buf` unchanged (C `memcpy` into the start of a larger buffer). -/
def memWrite (buf src : List Nat) : List Nat := src ++ buf.drop src.length

/-- Capacity of the UART driver receive ring buffer:
`uart_driver_install(UART_NUM_1, RX_BUF_SIZE * 2, 0, 0, NULL, 0)` at
main.c line 48 installs a `RX_BUF_SIZE * 2` = 2048-byte receive buffer. -/
def RX_RING_SIZE : Nat := RX_BUF_SIZE * 2

/-- Driver-side receive queue, per the ESP-IDF UART driver contract for the
buffer installed at main.c line 48: arriving bytes are queued in the ring
buffer, and each `uart_read_bytes(_, buf, maxLen, timeout)` call consumes
at most `maxLen` bytes from the front of the queue; bytes it does not
consume remain queued for later read calls (they are not discarded). The
result is (bytes delivered to the caller, bytes still queued). -/
def uart_ring_read (q : List Nat) (maxLen : Nat) : List Nat × List Nat :=
  (q.take maxLen, q.drop maxLen)

/-- The exact value of an IEEE-754 floating point computation as performed
here: finite, an infinity, or NaN. -/
inductive FloatVal where
  | finite (q : ℚ)
  | posInf
  | negInf
  | nan
  deriving Repr, DecidableEq

/-- IEEE-754 division `a / b` of finite values: division by zero yields an
infinity (or NaN for `0 / 0`), never a finite value. -/
def floatDiv (a b : ℚ) : FloatVal :=
  if b = 0 then
    if a = 0 then FloatVal.nan
    else if 0 < a then FloatVal.posInf
    else FloatVal.negInf
  else FloatVal.finite (a / b)

/-- IEEE-754 multiplication of a possibly non-finite value by the finite
nonnegative constant `hz`. -/
def floatScale (v : FloatVal) (hz : Nat) : FloatVal :=
  if hz = 0 then
    match v with
    | FloatVal.finite q => FloatVal.finite (q * 0)
    | _ => FloatVal.nan
  else
    match v with
    | FloatVal.finite q => FloatVal.finite (q * hz)
    | FloatVal.posInf => FloatVal.posInf
    | FloatVal.negInf => FloatVal.negInf
    | FloatVal.nan => FloatVal.nan

/-- The speed expression `(count / time_taken) * configTICK_RATE_HZ` of
main.c lines 66-67 and 125-126, with `time_taken = end - start` ticks. -/
def speedOf (count : Int) (elapsed : Nat) : FloatVal :=
  floatScale (floatDiv (count : ℚ) (elapsed : ℚ)) configTICK_RATE_HZ

/-- Observable effects of the cycle, in program order. -/
inductive Event where
  /-- Call `uart_write_bytes(UART_NUM_1, data, len)`: the bytes submitted for
  transmission. -/
  | transmit (bytes : List Nat)
  /-- Log line `ESP_LOGI(logName, "Wrote %d bytes", txBytes)`. -/
  | logWrote (txBytes : Int)
  /-- Log line `ESP_LOGI(logName, "Transmission Speed ...", speed)`. -/
  | logTxSpeed (v : FloatVal)
  /-- Log line `ESP_LOGI(RX_TASK_TAG, "WAITING FOR DATA")`. -/
  | logWaiting
  /-- Log line reading bytes and contents: `ESP_LOGI(RX_TASK_TAG, "Read %d bytes ...", rxBytes, data)`. -/
  | logRead (rxBytes : Nat) (s : List Nat)
  /-- Log line `ESP_LOGI(RX_TASK_TAG, "Reception Speed ...", speed)`. -/
  | logRxSpeed (v : FloatVal)
  /-- Call `nvs_set_str(my_handle, "uart", data)`: the string value stored. -/
  | storeSet (s : List Nat)
  /-- Call `nvs_commit(my_handle)`, carrying the status the call returned
  (the C code discards it). -/
  | commitOp (ok : Bool)
  /-- Call `nvs_erase_all(my_handle)`. -/
  | eraseAll
  /-- Call `vTaskDelay(ms / portTICK_PERIOD_MS)`: a delay of `ms` milliseconds. -/
  | delayMs (ms : Nat)
  deriving Repr, DecidableEq

/-- The payloads submitted to the UART during a trace. -/
def transmissions (evs : List Event) : List (List Nat) :=
  evs.filterMap fun e =>
    match e with
    | Event.transmit b => some b
    | _ => none

/-- Total milliseconds of task delay in a trace. -/
def delayTotal (evs : List Event) : Nat :=
  (evs.filterMap fun e =>
    match e with
    | Event.delayMs n => some n
    | _ => none).sum

/-- Outcome of an NVS read. -/
inductive NvsResult where
  | ok
  | notFound
  | invalidLength
  deriving Repr, DecidableEq

/-- Function `nvs_get_str(my_handle, "uart", buf, &size)`: returns the status, the
buffer contents after the call, and the value `size` holds after the call.
On `notFound` (no record) and on `invalidLength` (stored string longer than
`size`, terminator included) the buffer is left untouched; on success the
string and its terminator are copied into the front of the buffer and `size`
reports the copied length. -/
def nvs_get_str (store : Option (List Nat)) (buf : List Nat) (size : Nat) :
    NvsResult × List Nat × Nat :=
  match store with
  | none => (NvsResult.notFound, buf, size)
  | some s =>
    if size < s.length + 1 then (NvsResult.invalidLength, buf, size)
    else (NvsResult.ok, memWrite buf (s ++ [0]), s.length + 1)

/-- Result of `sendData`: the trace it emits and the store state it leaves
(it ends with `nvs_erase_all` + `nvs_commit`). -/
structure SendOut where
  events : List Event
  store : Option (List Nat)
  deriving Repr, DecidableEq

/-- Function `sendData` (main.c lines 59-73): transmit `strlen(data)` bytes of `data`,
log the written count and the transmission speed, then erase the store and
commit.  Environment parameters: `txReturn` is the value `uart_write_bytes`
returned (partial writes are possible), `elapsed` the tick difference
`end_time - start_time` around the write, `eraseOk` whether the
`nvs_erase_all` + `nvs_commit` pair took effect (the C code discards both
status values, so nothing downstream depends on it). -/
def sendData (data : List Nat) (store : Option (List Nat))
    (txReturn : Int) (elapsed : Nat) (eraseOk : Bool) : SendOut :=
  let len := strlen data
  { events := [Event.transmit (data.take len),
               Event.logWrote txReturn,
               Event.logTxSpeed (speedOf txReturn elapsed),
               Event.eraseAll,
               Event.commitOp eraseOk],
    store := if eraseOk then none else store }

/-- Function `tx_task` (main.c lines 81-94): allocate a `RX_BUF_SIZE` buffer (its
initial contents `uninit` are indeterminate), read the "uart" record into it
with `nvs_get_str` — discarding the status and the reported size, exactly as
the C code does — call `sendData` on the buffer, then delay 2000 ms. -/
def tx_task (store : Option (List Nat)) (uninit : List Nat)
    (txReturn : Int) (elapsed : Nat) (eraseOk : Bool) : SendOut :=
  let r := nvs_get_str store uninit RX_BUF_SIZE
  let s := sendData r.2.1 store txReturn elapsed eraseOk
  { events := s.events ++ [Event.delayMs 2000],
    store := s.store }

/-- State carried across iterations of the `rx_task` loop: the NVS record
and the contents of the persistent `malloc(RX_BUF_SIZE + 1)` receive
buffer. -/
structure RxState where
  store : Option (List Nat)
  rxBuf : List Nat
  deriving Repr, DecidableEq

/-- Environment inputs consumed by one iteration of the `rx_task` loop. -/
structure Env where
  /-- Bytes available to `uart_read_bytes` in this 1-second window. -/
  input : List Nat
  /-- Tick difference `end_time - start_time` around the read. -/
  rxElapsed : Nat
  /-- Status returned by the `nvs_commit` after `nvs_set_str`
  (the C code discards it). -/
  commitOk : Bool
  /-- Indeterminate initial contents of the buffer that `tx_task` allocates. -/
  txUninit : List Nat
  /-- Value returned by `uart_write_bytes`. -/
  txReturn : Int
  /-- Tick difference around the write. -/
  txElapsed : Nat
  /-- Whether the erase step in `sendData` takes effect. -/
  eraseOk : Bool
  deriving Repr, DecidableEq

/-- Result of one iteration of the `rx_task` loop. -/
structure IterOut where
  events : List Event
  state : RxState
  deriving Repr, DecidableEq

/-- One iteration of the `while (1)` loop of `rx_task` (main.c lines
109-134): log WAITING, read up to `RX_BUF_SIZE` bytes; if any arrived,
null-terminate them in the buffer, store the resulting C string with
`nvs_set_str` + `nvs_commit` (status discarded), log count and reception
speed, and run `tx_task`; in every case end with a 3000 ms delay. -/
def rx_iter (st : RxState) (env : Env) : IterOut :=
  let received := env.input.take RX_BUF_SIZE
  let rxBytes := received.length
  if 0 < rxBytes then
    let buf := memWrite st.rxBuf (received ++ [0])
    let stored := cstr buf
    let t := tx_task (some stored) env.txUninit env.txReturn env.txElapsed
      env.eraseOk
    { events := [Event.logWaiting,
                 Event.storeSet stored,
                 Event.commitOp env.commitOk,
                 Event.logRead rxBytes (cstr buf),
                 Event.logRxSpeed (speedOf (rxBytes : Int) env.rxElapsed)]
        ++ t.events ++ [Event.delayMs 3000],
      state := { store := t.store, rxBuf := buf } }
  else
    { events := [Event.logWaiting, Event.delayMs 3000],
      state := st }

/-! Helper lemmas about C strings. -/

theorem cstr_append_zero (l r : List Nat) : cstr (l ++ 0 :: r) = cstr l := by
  induction l with
  | nil => simp [cstr]
  | cons a t ih =>
    by_cases h : a = 0
    · subst h; simp [cstr]
    · simpa [cstr, List.takeWhile_cons, h] using ih

theorem cstr_of_ne_zero (l : List Nat) (h : ∀ b ∈ l, b ≠ 0) : cstr l = l := by
  induction l with
  | nil => rfl
  | cons a t ih =>
    have ha : a ≠ 0 := h a (List.mem_cons_self a t)
    have ht := ih fun b hb => h b (List.mem_cons_of_mem a hb)
    simpa [cstr, List.takeWhile_cons, ha] using ht

theorem cstr_mem_ne_zero (l : List Nat) : ∀ b ∈ cstr l, b ≠ 0 := by
  intro b hb
  have := List.mem_takeWhile_imp (p := fun x => decide (x ≠ 0)) (l := l) hb
  simpa using this

theorem cstr_idem (l : List Nat) : cstr (cstr l) = cstr l :=
  cstr_of_ne_zero (cstr l) (cstr_mem_ne_zero l)

theorem cstr_length_le (l : List Nat) : (cstr l).length ≤ l.length := by
  conv_rhs => rw [← List.takeWhile_append_dropWhile (fun x => decide (x ≠ 0)) l]
  rw [List.length_append]
  exact Nat.le_add_right _ _

theorem take_strlen_eq_cstr (l : List Nat) : l.take (strlen l) = cstr l := by
  induction l with
  | nil => rfl
  | cons a t ih =>
    by_cases h : a = 0
    · subst h; simp [strlen, cstr]
    · simpa [strlen, cstr, List.takeWhile_cons, h] using ih

theorem memWrite_eq_append_cons (buf l : List Nat) :
    memWrite buf (l ++ [0]) = l ++ 0 :: buf.drop (l.length + 1) := by
  simp [memWrite]

theorem rx_iter_logs_reception (st : RxState) (env : Env)
    (hpos : 0 < (env.input.take RX_BUF_SIZE).length)
    (hnz : ∀ b ∈ env.input.take RX_BUF_SIZE, b ≠ 0) :
    Event.logRead (env.input.take RX_BUF_SIZE).length
        (env.input.take RX_BUF_SIZE) ∈ (rx_iter st env).events
    ∧ Event.storeSet (env.input.take RX_BUF_SIZE)
        ∈ (rx_iter st env).events := by
  have hcstr : cstr (memWrite st.rxBuf (env.input.take RX_BUF_SIZE ++ [0]))
      = env.input.take RX_BUF_SIZE := by
    rw [memWrite_eq_append_cons, cstr_append_zero, cstr_of_ne_zero _ hnz]
  have hr : 0 < RX_BUF_SIZE := by norm_num [RX_BUF_SIZE]
  have hinp : 0 < env.input.length := by
    rw [List.length_take] at hpos; omega
  simp [rx_iter, hcstr, hr, hinp]

/-! Claim theorems. -/

/-- Claim C1: for every payload `P` with `0 < length P < RX_BUF_SIZE` that
arrives in one receive call, the full receive-persist-replay cycle submits
exactly one transmission, and its bytes are `P` truncated at the first null
byte; in particular exactly `P` when `P` holds no null byte. -/
theorem c1_cycle_transmits_payload_truncated_at_null
    (P : List Nat) (st : RxState) (env : Env)
    (hin : env.input = P) (h0 : 0 < P.length) (hcap : P.length < RX_BUF_SIZE) :
    transmissions (rx_iter st env).events = [cstr P]
    ∧ (0 ∉ P → transmissions (rx_iter st env).events = [P]) := by
  have hP : env.input.take RX_BUF_SIZE = P := by
    rw [hin]; exact List.take_of_length_le (Nat.le_of_lt hcap)
  have hpos : 0 < (env.input.take RX_BUF_SIZE).length := by rw [hP]; exact h0
  -- the written receive buffer and the stored string
  have hbuf : ∀ buf : List Nat, cstr (memWrite buf (P ++ [0])) = cstr P := by
    intro buf
    rw [memWrite_eq_append_cons, cstr_append_zero]
  -- the stored string fits the read size used by tx_task
  have hfit : ¬ (RX_BUF_SIZE < (cstr P).length + 1) := by
    have := cstr_length_le P
    omega
  -- the buffer tx_task reads back, and its strlen
  have hdata : ∀ u : List Nat,
      memWrite u (cstr P ++ [0]) = cstr P ++ 0 :: u.drop ((cstr P).length + 1) :=
    fun u => memWrite_eq_append_cons u (cstr P)
  have hstr : ∀ u : List Nat,
      strlen (cstr P ++ 0 :: u) = (cstr P).length := by
    intro u
    show (cstr (cstr P ++ 0 :: u)).length = (cstr P).length
    rw [cstr_append_zero, cstr_idem]
  have htake : ∀ u : List Nat,
      (cstr P ++ 0 :: u).take ((cstr P).length) = cstr P := by
    intro u
    exact List.take_left (cstr P) (0 :: u)
  have hmain : transmissions (rx_iter st env).events = [cstr P] := by
    simp only [rx_iter, hP, hpos, if_pos, tx_task, nvs_get_str, hfit, if_neg,
      not_false_eq_true, sendData, hbuf, hdata, hstr, htake, transmissions,
      List.filterMap_append, List.filterMap_cons, List.filterMap_nil]
    simp [h0]
  refine ⟨hmain, fun hz => ?_⟩
  rw [hmain, cstr_of_ne_zero P fun b hb => ?_]
  intro hb0
  exact hz (hb0 ▸ hb)

/-- Witness for C1 at the concrete two-byte payload `[104, 105]`. -/
theorem c1_cycle_transmits_payload_truncated_at_null_witness :
    ({ input := [104, 105], rxElapsed := 3, commitOk := true,
       txUninit := List.replicate 1024 9, txReturn := 2, txElapsed := 4,
       eraseOk := true } : Env).input = [104, 105]
    ∧ 0 < ([104, 105] : List Nat).length
    ∧ ([104, 105] : List Nat).length < RX_BUF_SIZE
    ∧ transmissions (rx_iter
        { store := none, rxBuf := List.replicate 1025 7 }
        { input := [104, 105], rxElapsed := 3, commitOk := true,
          txUninit := List.replicate 1024 9, txReturn := 2, txElapsed := 4,
          eraseOk := true }).events = [cstr [104, 105]] :=
  ⟨rfl, by decide, by decide,
    (c1_cycle_transmits_payload_truncated_at_null [104, 105]
      { store := none, rxBuf := List.replicate 1025 7 }
      { input := [104, 105], rxElapsed := 3, commitOk := true,
        txUninit := List.replicate 1024 9, txReturn := 2, txElapsed := 4,
        eraseOk := true } rfl (by decide) (by decide)).1⟩

/-- Claim C2 is violated by the code: with no stored record the replay-step
read reports NotFound, yet the code still calls sendData on the untouched
uninitialized buffer and submits its leading garbage bytes (here a single
byte 65) for transmission, instead of skipping transmission. -/
theorem c2_notfound_read_still_transmits_garbage :
    (nvs_get_str none (65 :: 0 :: List.replicate 1022 9) RX_BUF_SIZE).1
        = NvsResult.notFound
    ∧ transmissions (tx_task none (65 :: 0 :: List.replicate 1022 9)
        1 1 true).events = [[65]] :=
  ⟨rfl, rfl⟩

/-- Claim C3 is violated by the code: the speed division is performed even
when the elapsed tick count is zero; with two bytes written in zero ticks
the code logs an infinite transmission speed, and with two bytes received
in zero ticks an infinite reception speed - no immeasurable marker exists
anywhere in the trace vocabulary of the code. -/
theorem c3_zero_elapsed_produces_infinite_speed :
    Event.logTxSpeed FloatVal.posInf
        ∈ (sendData [72, 105] (some [72, 105]) 2 0 true).events
    ∧ Event.logRxSpeed FloatVal.posInf
        ∈ (rx_iter { store := none, rxBuf := [7, 7, 7, 7] }
            { input := [72, 105], rxElapsed := 0, commitOk := true,
              txUninit := [9, 9], txReturn := 2,
              txElapsed := 0, eraseOk := true }).events := by
  exact ⟨by decide, by decide⟩

/-- Claim C5: when the erase step at the end of sendData takes effect, the
store it leaves holds no record, and an immediate read of the key reports
NotFound: the single stored record is destroyed right after transmission. -/
theorem c5_erase_leaves_store_empty
    (data : List Nat) (store : Option (List Nat)) (txReturn : Int)
    (elapsed : Nat) (buf : List Nat) (size : Nat) :
    (sendData data store txReturn elapsed true).store = none
    ∧ (nvs_get_str (sendData data store txReturn elapsed true).store
        buf size).1 = NvsResult.notFound :=
  ⟨rfl, rfl⟩

/-- Claim C7: when the receive window yields zero bytes, the iteration
leaves the controller state unchanged and its trace holds only the waiting
log and the loop delay - no store write, no commit, no transmission. -/
theorem c7_timeout_keeps_state_and_does_nothing
    (st : RxState) (env : Env) (h : env.input = []) :
    (rx_iter st env).state = st
    ∧ (rx_iter st env).events = [Event.logWaiting, Event.delayMs 3000] := by
  have ht : env.input.take RX_BUF_SIZE = [] := by rw [h]; rfl
  constructor <;> simp [rx_iter, ht]

/-- Witness for C7 on a concrete nonempty state and an empty input. -/
theorem c7_timeout_keeps_state_and_does_nothing_witness :
    ({ input := [], rxElapsed := 0, commitOk := true, txUninit := [],
        txReturn := 0, txElapsed := 0, eraseOk := true } : Env).input
      = ([] : List Nat)
    ∧ (rx_iter { store := some [1], rxBuf := [5, 5] }
        { input := [], rxElapsed := 0, commitOk := true, txUninit := [],
          txReturn := 0, txElapsed := 0, eraseOk := true }).state
      = { store := some [1], rxBuf := [5, 5] } :=
  ⟨rfl, (c7_timeout_keeps_state_and_does_nothing
    { store := some [1], rxBuf := [5, 5] }
    { input := [], rxElapsed := 0, commitOk := true, txUninit := [],
      txReturn := 0, txElapsed := 0, eraseOk := true } rfl).1⟩

/-- Claim C8: a partial transmit (written count below the submitted length)
is surfaced in the log as the actual written count, and the cycle still
proceeds: the erase step runs and exactly one transmit attempt is made, so
the remaining bytes are never retried. -/
theorem c8_partial_write_logged_and_not_retried
    (data : List Nat) (store : Option (List Nat)) (w : Int) (elapsed : Nat)
    (eraseOk : Bool) (h : w < (strlen data : Int)) :
    Event.logWrote w ∈ (sendData data store w elapsed eraseOk).events
    ∧ Event.eraseAll ∈ (sendData data store w elapsed eraseOk).events
    ∧ (transmissions (sendData data store w elapsed eraseOk).events).length
        = 1 := by
  refine ⟨?_, ?_, ?_⟩ <;> simp [sendData, transmissions]

/-- Witness for C8: one of two bytes written. -/
theorem c8_partial_write_logged_and_not_retried_witness :
    ((1 : Int) < (strlen [104, 105] : Int))
    ∧ Event.logWrote 1
        ∈ (sendData [104, 105] (some [104, 105]) 1 5 true).events :=
  ⟨by decide, (c8_partial_write_logged_and_not_retried [104, 105]
    (some [104, 105]) 1 5 true (by decide)).1⟩

/-- Claim C9: during replay, the bytes submitted for transmission are
always the replay buffer bytes up to its first null, so their count is
exactly the strlen of the post-read buffer; the size value reported by the
store read is never consulted for the transmit length. -/
theorem c9_replay_transmits_strlen_bytes
    (store : Option (List Nat)) (uninit : List Nat) (txReturn : Int)
    (elapsed : Nat) (eraseOk : Bool) :
    transmissions (tx_task store uninit txReturn elapsed eraseOk).events
      = [cstr (nvs_get_str store uninit RX_BUF_SIZE).2.1]
    ∧ (cstr (nvs_get_str store uninit RX_BUF_SIZE).2.1).length
      = strlen (nvs_get_str store uninit RX_BUF_SIZE).2.1 := by
  constructor
  · simp [tx_task, sendData, transmissions, take_strlen_eq_cstr]
  · rfl

set_option maxRecDepth 100000 in
/-- Claim C4 as stated is refuted on both of its false parts: with a
2000-byte input and capacity 1024, the code receives and stores the first
1024 bytes, not the first 1023 (the trace logs a 1024-byte reception and
stores a 1024-byte string, and holds no 1023-byte store or read log); and
the un-read 976-byte remainder is not dropped: it stays queued in the
driver receive ring buffer, and the next loop iteration receives and
stores exactly those 976 bytes. -/
theorem c4_counterexample_neither_1023_nor_dropped :
    Event.storeSet (List.replicate 1024 1) ∈ (rx_iter
      { store := none, rxBuf := List.replicate 1025 7 }
      { input := (uart_ring_read (List.replicate 2000 1) RX_BUF_SIZE).1,
        rxElapsed := 3, commitOk := true,
        txUninit := List.replicate 1024 9, txReturn := 1024, txElapsed := 4,
        eraseOk := true }).events
    ∧ Event.storeSet (List.replicate 1023 1) ∉ (rx_iter
      { store := none, rxBuf := List.replicate 1025 7 }
      { input := (uart_ring_read (List.replicate 2000 1) RX_BUF_SIZE).1,
        rxElapsed := 3, commitOk := true,
        txUninit := List.replicate 1024 9, txReturn := 1024, txElapsed := 4,
        eraseOk := true }).events
    ∧ Event.logRead 1024 (List.replicate 1024 1) ∈ (rx_iter
      { store := none, rxBuf := List.replicate 1025 7 }
      { input := (uart_ring_read (List.replicate 2000 1) RX_BUF_SIZE).1,
        rxElapsed := 3, commitOk := true,
        txUninit := List.replicate 1024 9, txReturn := 1024, txElapsed := 4,
        eraseOk := true }).events
    ∧ (uart_ring_read (List.replicate 2000 1) RX_BUF_SIZE).2
        = List.replicate 976 1
    ∧ Event.storeSet (List.replicate 976 1) ∈ (rx_iter
        (rx_iter { store := none, rxBuf := List.replicate 1025 7 }
          { input := (uart_ring_read (List.replicate 2000 1)
              RX_BUF_SIZE).1,
            rxElapsed := 3, commitOk := true,
            txUninit := List.replicate 1024 9, txReturn := 1024,
            txElapsed := 4, eraseOk := true }).state
        { input := (uart_ring_read (List.replicate 2000 1) RX_BUF_SIZE).2,
          rxElapsed := 3, commitOk := true,
          txUninit := List.replicate 1024 9, txReturn := 976,
          txElapsed := 4, eraseOk := true }).events
    ∧ Event.logRead 976 (List.replicate 976 1) ∈ (rx_iter
        (rx_iter { store := none, rxBuf := List.replicate 1025 7 }
          { input := (uart_ring_read (List.replicate 2000 1)
              RX_BUF_SIZE).1,
            rxElapsed := 3, commitOk := true,
            txUninit := List.replicate 1024 9, txReturn := 1024,
            txElapsed := 4, eraseOk := true }).state
        { input := (uart_ring_read (List.replicate 2000 1) RX_BUF_SIZE).2,
          rxElapsed := 3, commitOk := true,
          txUninit := List.replicate 1024 9, txReturn := 976,
          txElapsed := 4, eraseOk := true }).events := by
  exact ⟨by decide, by decide, by decide, by decide, by decide, by decide⟩

/-- Claim C4 amended: a single reception captures at most RX_BUF_SIZE =
1024 payload bytes plus the terminator; when a null-free input longer than
1024 bytes but no larger than the 2048-byte driver ring buffer (such as
the 2000-byte scenario input) is queued, exactly the first 1024 bytes are
received and stored in that cycle, and the remainder is not dropped: it
stays queued in the driver receive buffer and is received and stored by
the next loop iteration. -/
theorem c4_amended_reception_capped_and_remainder_queued
    (st : RxState) (q : List Nat) (env1 env2 : Env)
    (hq : RX_BUF_SIZE < q.length)
    (hring : q.length ≤ RX_RING_SIZE)
    (hnz : ∀ b ∈ q, b ≠ 0)
    (h1 : env1.input = (uart_ring_read q RX_BUF_SIZE).1)
    (h2 : env2.input = (uart_ring_read q RX_BUF_SIZE).2) :
    Event.logRead RX_BUF_SIZE (q.take RX_BUF_SIZE)
        ∈ (rx_iter st env1).events
    ∧ Event.storeSet (q.take RX_BUF_SIZE) ∈ (rx_iter st env1).events
    ∧ Event.logRead (q.length - RX_BUF_SIZE) (q.drop RX_BUF_SIZE)
        ∈ (rx_iter (rx_iter st env1).state env2).events
    ∧ Event.storeSet (q.drop RX_BUF_SIZE)
        ∈ (rx_iter (rx_iter st env1).state env2).events := by
  have hrg : RX_RING_SIZE = RX_BUF_SIZE * 2 := rfl
  -- first iteration: the driver delivers the first RX_BUF_SIZE bytes
  have t1 : env1.input.take RX_BUF_SIZE = q.take RX_BUF_SIZE := by
    rw [h1]
    show (q.take RX_BUF_SIZE).take RX_BUF_SIZE = q.take RX_BUF_SIZE
    rw [List.take_take, Nat.min_self]
  have len1 : (q.take RX_BUF_SIZE).length = RX_BUF_SIZE := by
    rw [List.length_take]; omega
  have hnz1 : ∀ b ∈ env1.input.take RX_BUF_SIZE, b ≠ 0 := by
    rw [t1]; exact fun b hb => hnz b (List.take_subset _ _ hb)
  have m1 := rx_iter_logs_reception st env1
    (by rw [t1, len1]; norm_num [RX_BUF_SIZE]) hnz1
  rw [t1, len1] at m1
  -- second iteration: the driver delivers the still-queued remainder
  have t2 : env2.input.take RX_BUF_SIZE = q.drop RX_BUF_SIZE := by
    rw [h2]
    show (q.drop RX_BUF_SIZE).take RX_BUF_SIZE = q.drop RX_BUF_SIZE
    apply List.take_of_length_le
    rw [List.length_drop]; omega
  have len2 : (q.drop RX_BUF_SIZE).length = q.length - RX_BUF_SIZE :=
    List.length_drop _ _
  have hnz2 : ∀ b ∈ env2.input.take RX_BUF_SIZE, b ≠ 0 := by
    rw [t2]; exact fun b hb => hnz b (List.drop_subset _ _ hb)
  have m2 := rx_iter_logs_reception (rx_iter st env1).state env2
    (by rw [t2, len2]; omega) hnz2
  rw [t2, len2] at m2
  exact ⟨m1.1, m1.2, m2.1, m2.2⟩

set_option maxRecDepth 100000 in
/-- Witness for the amended C4: 2000 null-free queued bytes, read across
two consecutive loop iterations. -/
theorem c4_amended_reception_capped_and_remainder_queued_witness :
    RX_BUF_SIZE < (List.replicate 2000 1).length
    ∧ (List.replicate 2000 1).length ≤ RX_RING_SIZE
    ∧ Event.storeSet ((List.replicate 2000 1).take RX_BUF_SIZE)
        ∈ (rx_iter { store := none, rxBuf := List.replicate 1025 7 }
            { input := (uart_ring_read (List.replicate 2000 1)
                RX_BUF_SIZE).1,
              rxElapsed := 3, commitOk := true,
              txUninit := List.replicate 1024 9, txReturn := 1024,
              txElapsed := 4, eraseOk := true }).events
    ∧ Event.storeSet ((List.replicate 2000 1).drop RX_BUF_SIZE)
        ∈ (rx_iter
            (rx_iter { store := none, rxBuf := List.replicate 1025 7 }
              { input := (uart_ring_read (List.replicate 2000 1)
                  RX_BUF_SIZE).1,
                rxElapsed := 3, commitOk := true,
                txUninit := List.replicate 1024 9, txReturn := 1024,
                txElapsed := 4, eraseOk := true }).state
            { input := (uart_ring_read (List.replicate 2000 1)
                RX_BUF_SIZE).2,
              rxElapsed := 3, commitOk := true,
              txUninit := List.replicate 1024 9, txReturn := 976,
              txElapsed := 4, eraseOk := true }).events := by
  have hq : RX_BUF_SIZE < (List.replicate 2000 1).length := by
    rw [List.length_replicate]; norm_num [RX_BUF_SIZE]
  have hring : (List.replicate 2000 1).length ≤ RX_RING_SIZE := by
    rw [List.length_replicate]; norm_num [RX_RING_SIZE, RX_BUF_SIZE]
  have hnz : ∀ b ∈ List.replicate 2000 1, b ≠ 0 := fun b hb => by
    rw [List.eq_of_mem_replicate hb]; norm_num
  have m := c4_amended_reception_capped_and_remainder_queued
    { store := none, rxBuf := List.replicate 1025 7 }
    (List.replicate 2000 1)
    { input := (uart_ring_read (List.replicate 2000 1) RX_BUF_SIZE).1,
      rxElapsed := 3, commitOk := true,
      txUninit := List.replicate 1024 9, txReturn := 1024,
      txElapsed := 4, eraseOk := true }
    { input := (uart_ring_read (List.replicate 2000 1) RX_BUF_SIZE).2,
      rxElapsed := 3, commitOk := true,
      txUninit := List.replicate 1024 9, txReturn := 976,
      txElapsed := 4, eraseOk := true }
    hq hring hnz rfl rfl
  exact ⟨hq, hring, m.2.1, m.2.2.2⟩

/-- Claim C6 as stated is refuted: the status of the commit after the
store write is discarded, so even when that commit fails the controller
still advances to replay and transmits the just-received bytes; the
transmissions of the cycle are nonempty. -/
theorem c6_counterexample_replay_after_failed_commit :
    transmissions (rx_iter
      { store := none, rxBuf := [7, 7, 7, 7] }
      { input := [104, 105], rxElapsed := 1, commitOk := false,
        txUninit := [9, 9], txReturn := 2, txElapsed := 1,
        eraseOk := true }).events = [[104, 105]]
    ∧ ([[104, 105]] : List (List Nat)) ≠ [] :=
  ⟨by decide, by decide⟩

/-- Claim C6 amended: the return status of the commit is not checked; the
controller advances to the replay step unconditionally, so a cycle whose
commit failed still performs exactly one transmission, identical to the
transmission of the same cycle with a successful commit. -/
theorem c6_amended_commit_status_ignored
    (st : RxState) (env : Env)
    (hpos : 0 < (env.input.take RX_BUF_SIZE).length)
    (hfail : env.commitOk = false) :
    (transmissions (rx_iter st env).events).length = 1
    ∧ transmissions (rx_iter st env).events
      = transmissions (rx_iter st { env with commitOk := true }).events := by
  have hr : 0 < RX_BUF_SIZE := by norm_num [RX_BUF_SIZE]
  have hinp : 0 < env.input.length := by
    rw [List.length_take] at hpos; omega
  constructor <;>
    simp [rx_iter, hr, hinp, tx_task, sendData, transmissions]

/-- Witness for the amended C6 at a two-byte payload with failing commit. -/
theorem c6_amended_commit_status_ignored_witness :
    0 < (({ input := [104, 105], rxElapsed := 1, commitOk := false,
              txUninit := [9, 9], txReturn := 2, txElapsed := 1,
              eraseOk := true } : Env).input.take RX_BUF_SIZE).length
    ∧ (transmissions (rx_iter { store := none, rxBuf := [7, 7, 7, 7] }
        { input := [104, 105], rxElapsed := 1, commitOk := false,
          txUninit := [9, 9], txReturn := 2, txElapsed := 1,
          eraseOk := true }).events).length = 1 :=
  ⟨by decide, (c6_amended_commit_status_ignored
    { store := none, rxBuf := [7, 7, 7, 7] }
    { input := [104, 105], rxElapsed := 1, commitOk := false,
      txUninit := [9, 9], txReturn := 2, txElapsed := 1,
      eraseOk := true } (by decide) rfl).1⟩

/-- Claim C10 as stated is refuted: after a completed cycle the controller
delays 2000 ms at the end of tx_task and another 3000 ms at the end of the
loop body, a total of 5000 ms before the next receive, which does not lie
in the 2000-3000 ms range. -/
theorem c10_counterexample_cooldown_is_5000ms :
    delayTotal (rx_iter
      { store := none, rxBuf := [7, 7, 7, 7] }
      { input := [104, 105], rxElapsed := 1, commitOk := true,
        txUninit := [9, 9], txReturn := 2, txElapsed := 1,
        eraseOk := true }).events = 5000
    ∧ ¬ (2000 ≤ (5000 : Nat) ∧ (5000 : Nat) ≤ 3000) :=
  ⟨by decide, by decide⟩

/-- Claim C10 amended: after any completed cycle the controller waits a
fixed total cool-down of 5000 ms - 2000 ms after the transmit-and-erase
step plus 3000 ms at the end of the loop iteration - before issuing its
next receive. -/
theorem c10_amended_cooldown_fixed_5000ms
    (st : RxState) (env : Env)
    (hpos : 0 < (env.input.take RX_BUF_SIZE).length) :
    delayTotal (rx_iter st env).events = 5000 := by
  have hr : 0 < RX_BUF_SIZE := by norm_num [RX_BUF_SIZE]
  have hinp : 0 < env.input.length := by
    rw [List.length_take] at hpos; omega
  simp [rx_iter, hr, hinp, tx_task, sendData, delayTotal]

/-- Witness for the amended C10 at a two-byte payload. -/
theorem c10_amended_cooldown_fixed_5000ms_witness :
    0 < (({ input := [104, 105], rxElapsed := 1, commitOk := true,
              txUninit := [9, 9], txReturn := 2, txElapsed := 1,
              eraseOk := true } : Env).input.take RX_BUF_SIZE).length
    ∧ delayTotal (rx_iter { store := none, rxBuf := [7, 7, 7, 7] }
        { input := [104, 105], rxElapsed := 1, commitOk := true,
          txUninit := [9, 9], txReturn := 2, txElapsed := 1,
          eraseOk := true }).events = 5000 :=
  ⟨by decide, c10_amended_cooldown_fixed_5000ms
    { store := none, rxBuf := [7, 7, 7, 7] }
    { input := [104, 105], rxElapsed := 1, commitOk := true,
      txUninit := [9, 9], txReturn := 2, txElapsed := 1,
      eraseOk := true } (by decide)⟩

end UART
